import Mathlib

/-!
Verification development for `pserver.oauth` (source: `src/pserver/oauth/oauth.py`).

The Python module is shallowly embedded below.  Conventions:

* Python exceptions are modelled with `Except PyError`; a function that the
  source can exit only by `return` is total and wrapped in `.ok`.
* The PyJWT library is modelled at the granularity the source observes it:
  `jwt.decode(body, secret, algorithms, options)` verifies the signature
  first (failure class `DecodeError`, which also covers malformed input),
  then the issued-at claim when `verify_iat` is enabled (failure class
  `InvalidIssuedAtError`), then the expiry claim (failure class
  `ExpiredSignatureError`).  `ExpiredSignatureError` and
  `InvalidIssuedAtError` are siblings of `DecodeError`, not subclasses, so
  an `except DecodeError` clause does not catch them — the source itself
  relies on this by catching `jwt.InvalidIssuedAtError` separately in
  `call_auth`.  A concrete wire token is abstracted by `TokenProps`: which
  of the three checks would fail, plus the claims it carries.
* Awaited network results (`call_auth` outcomes) are passed in as
  parameters of type `Option _`, matching the source's `if result:` tests.
-/

set_option autoImplicit false

namespace PServerOAuth

/-- Errors raised by the modelled PyJWT `decode`. -/
inductive JwtError where
  | decodeError
  | expiredSignature
  | invalidIssuedAt
  deriving DecidableEq, Repr

/-- Python exception channel used by the embedded functions. -/
inductive PyError where
  | keyError
  | typeError
  | jwt (e : JwtError)
  deriving DecidableEq, Repr

/-- The claims of a user bearer token that `extract_user` reads.  The
`Option` fields record whether the corresponding dictionary key is
present (`creds['jwt']['token']` and `creds['jwt']['login']`). -/
structure JwtClaims where
  token? : Option String
  login? : Option String
  deriving DecidableEq, Repr

/-- Abstraction of a concrete signed wire token: which verification steps
of the modelled `jwt.decode` would fail on it, and the claims it carries. -/
structure TokenProps where
  sigValid : Bool
  expired : Bool
  iatFuture : Bool
  claims : JwtClaims
  deriving DecidableEq, Repr

/-- Modelled `jwt.decode(body, secret, algorithms, options)`.  `verify_iat`
is `true` for the default options and `false` for `NON_IAT_VERIFY`
(source lines 24-26); signature and expiry verification are always active. -/
def jwt_decode (tok : TokenProps) (verify_iat : Bool) : Except JwtError JwtClaims :=
  if tok.sigValid = false then .error .decodeError
  else if verify_iat && tok.iatFuture then .error .invalidIssuedAt
  else if tok.expired then .error .expiredSignature
  else .ok tok.claims

/-- The `resp.status == 200` decode block of `OAuth.call_auth` (identical in
the GET branch, lines 124-136, and the POST branch, lines 147-159): decode
with default options; on `jwt.InvalidIssuedAtError` decode the same body
once more with `NON_IAT_VERIFY`; any other exception propagates.  Returns
the outcome together with the number of decode attempts made. -/
def call_auth_decode (tok : TokenProps) : Except JwtError JwtClaims × Nat :=
  match jwt_decode tok true with
  | .error .invalidIssuedAt => (jwt_decode tok false, 2)
  | r => (r, 1)

/-- The configuration fields `OAuth.__init__` stores from `settings`
(source lines 51-57). -/
structure OAuthConfig where
  server : String
  jwt_secret : String
  jwt_algorithm : String
  client_id : String
  client_password : String
  deriving DecidableEq, Repr

/-- A decoded service-token envelope held in `self._service_token`: the
source reads its `'service_token'` and `'exp'` entries. -/
structure ServiceEnvelope where
  service_token : String
  exp : Int
  deriving DecidableEq, Repr

/-- An outbound `call_auth` request: operation name and the `params`
dictionary, recorded so theorems can state which network calls are made
and with which parameters. -/
structure AuthCall where
  op : String
  params : List (String × String)
  deriving DecidableEq, Repr

/-- The renewal request `OAuth.service_token` sends (source lines 88-92). -/
def getAuthToken_call (cfg : OAuthConfig) : AuthCall :=
  ⟨"getAuthToken",
    [("client_id", cfg.client_id),
     ("client_secret", cfg.client_password),
     ("grant_type", "service")]⟩

/-- The fall-through of `OAuth.service_token` (source lines 87-96): issue
the `getAuthToken` call; if it yields a result, store it and return its
`'service_token'` entry, else return `None` leaving the held token
unchanged.  Result: (returned value, new `self._service_token`, the
network call that was made). -/
def service_token_renew (cfg : OAuthConfig) (held : Option ServiceEnvelope)
    (auth_result : Option ServiceEnvelope) :
    Except PyError (Option String × Option ServiceEnvelope × Option AuthCall) :=
  match auth_result with
  | some r => .ok (some r.service_token, some r, some (getAuthToken_call cfg))
  | none => .ok (none, held, some (getAuthToken_call cfg))

/-- `OAuth.service_token` (source lines 81-96).  `held` is
`self._service_token`, `now` is `timegm(datetime.utcnow().utctimetuple())`,
and `auth_result` is the awaited outcome of the `getAuthToken` call, used
only when the call is actually made.  The third component of the result
records the outbound network call (`none` = no call made).  No branch of
the source raises, hence every branch is `.ok`. -/
def service_token (cfg : OAuthConfig) (held : Option ServiceEnvelope) (now : Int)
    (auth_result : Option ServiceEnvelope) :
    Except PyError (Option String × Option ServiceEnvelope × Option AuthCall) :=
  match held with
  | some tok =>
      if tok.exp > now then .ok (some tok.service_token, held, none)
      else service_token_renew cfg held auth_result
  | none => service_token_renew cfg held auth_result

/-- The staleness test a caller of `service_token` performs before reaching
the renewal call (the guard of source lines 83-86, negated). -/
def needs_renewal (held : Option ServiceEnvelope) (now : Int) : Bool :=
  match held with
  | some tok => if tok.exp > now then false else true
  | none => true

/-- The remote `validToken` response: the source tests `if result:` and
then `'user' in result` (lines 108-112). -/
structure ValidationResult where
  user? : Option String
  deriving DecidableEq, Repr

/-- `OAuth.validate_token` (source lines 98-113).  `held` is
`self._service_token`; `scope` is `request.site.id`; `call_result` is the
awaited outcome of the `validToken` call.  The `params` dictionary reads
`self._service_token['service_token']` before the call is issued, so when
no service token is held the subscript of `None` raises `TypeError`
without any network traffic and without triggering acquisition; the
function never consults `now` or the `service_token` accessor.  On the
normal path the result is the made call together with the returned user
(or `None`). -/
def validate_token (held : Option ServiceEnvelope) (scope : String) (token : String)
    (call_result : Option ValidationResult) :
    Except PyError (AuthCall × Option String) :=
  match held with
  | none => .error .typeError
  | some env =>
      let call : AuthCall :=
        ⟨"validToken", [("code", env.service_token), ("token", token), ("scope", scope)]⟩
      match call_result with
      | some r =>
          match r.user? with
          | some u => .ok (call, some u)
          | none => .ok (call, none)
      | none => .ok (call, none)

/-- Split a list of characters at the first space, as Python's
`str.partition(' ')` does (dropping the separator). -/
def splitAtSpace : List Char → List Char × List Char
  | [] => ([], [])
  | c :: cs =>
      if c = ' ' then ([], cs)
      else
        let r := splitAtSpace cs
        (c :: r.1, r.2)

/-- `header_auth.partition(' ')` as used on source line 192: the text
before the first space and the text after it. -/
def partition_space (s : String) : String × String :=
  let r := splitAtSpace s.toList
  (String.mk r.1, String.mk r.2)

/-- Python `str.lower()` restricted to the ASCII range, which is all the
scheme comparison on source line 193 needs. -/
def str_lower (s : String) : String :=
  String.mk (s.toList.map Char.toLower)

/-- The request-scoped credential dictionary built by `extract_user`:
the optional `'jwt'` and `'user'` entries. -/
structure Creds where
  jwt : Option JwtClaims
  user : Option String
  deriving DecidableEq, Repr

/-- `PloneJWTExtraction.extract_user` (source lines 187-214).
`header_auth` is `request.headers.get('AUTHORIZATION')`; `has_config` is
whether the `IOAuth` utility lookup in `__init__` succeeded; `tok` models
the encoded bearer token; `validation` is the awaited outcome of
`oauth_utility.validate_token` (itself fallible, see `validate_token`).
The `try` on lines 195-201 catches only `jwt.exceptions.DecodeError`, so
any other decode exception propagates.  After a successful decode the
source subscripts `creds['jwt']['token']` (line 206) and — only when the
validation result is not `None`, thanks to `and` short-circuiting —
`creds['jwt']['login']` (line 208); a missing key raises `KeyError`. -/
def extract_user (header_auth : Option String) (has_config : Bool) (tok : TokenProps)
    (validation : Except PyError (Option String)) : Except PyError Creds :=
  match header_auth, has_config with
  | some h, true =>
      if str_lower (partition_space h).1 = "bearer" then
        match jwt_decode tok true with
        | .error .decodeError => .ok ⟨none, none⟩
        | .error e => .error (.jwt e)
        | .ok claims =>
            match claims.token? with
            | none => .error .keyError
            | some _t =>
                match validation with
                | .error e => .error e
                | .ok none => .ok ⟨some claims, none⟩
                | .ok (some v) =>
                    match claims.login? with
                    | none => .error .keyError
                    | some l =>
                        if v = l then .ok ⟨some claims, some v⟩
                        else .ok ⟨some claims, none⟩
      else .ok ⟨none, none⟩
  | _, _ => .ok ⟨none, none⟩

/-- The tri-state permission values imported from
`zope.securitypolicy.interfaces`. -/
inductive PermState where
  | Allow
  | Deny
  | Unset
  deriving DecidableEq, Repr

/-- The per-entry role translation of `OAuthPloneUser._init_data`
(source lines 263-269): `1 → Allow`, `0 → Deny`, anything else `→ Unset`. -/
def map_role_value (v : Int) : PermState :=
  if v = 1 then .Allow
  else if v = 0 then .Deny
  else .Unset

/-- The loop of source lines 263-269 applied to the whole role map,
entry by entry. -/
def map_roles (l : List (String × Int)) : List (String × PermState) :=
  l.map fun kv => (kv.1, map_role_value kv.2)

/-- The remote `getUser` record as read by `_init_data`
(`user_data['result']`, source lines 261-272): role map, group map
(membership flags) and display name. -/
structure UserData where
  roles : List (String × Int)
  groups : List (String × Int)
  name : String
  deriving DecidableEq, Repr

/-- The fields `_init_data` computes on the user object. -/
structure InitData where
  roles : List (String × PermState)
  groups : List String
  name : String
  deriving DecidableEq, Repr

/-- `OAuthPloneUser._init_data` (source lines 261-276): translate each role
entry in place, keep the groups with a truthy flag, store the name, and
raise `KeyError` when `len(self._roles) == 0`.  Translation replaces
values without removing entries, so the length test sees the raw map's
entry count. -/
def init_data (ud : UserData) : Except PyError InitData :=
  let roles := map_roles ud.roles
  let groups := (ud.groups.filter fun kv => kv.2 != 0).map Prod.fst
  if roles.length = 0 then .error .keyError
  else .ok ⟨roles, groups, ud.name⟩

/-- The identity `OAuthPloneUserFactory.create_user` stores on the
request: either the anonymous user or a `OAuthPloneUser` with the data
`get_info`/`_init_data` filled in. -/
inductive ResolvedUser where
  | anonymous
  | plone (login : String) (d : InitData)
  deriving DecidableEq, Repr

/-- `OAuthPloneUserFactory.create_user` (source lines 222-231) together
with `OAuthPloneUser.__init__`/`get_info` (lines 236-259): anonymous when
`'user'` is absent from the credential cache; otherwise build the user,
where any `KeyError` — from `creds['jwt']` in `__init__`, from
`self.token['token']` in the `getUser` params, from the `raise` on a
missing remote record, or from `_init_data` — falls back to anonymous.
`get_user_result` is the awaited outcome of the `getUser` call. -/
def create_user (creds : Creds) (get_user_result : Option UserData) : ResolvedUser :=
  match creds.user with
  | none => .anonymous
  | some login =>
      match creds.jwt with
      | none => .anonymous
      | some claims =>
          match claims.token? with
          | none => .anonymous
          | some _t =>
              match get_user_result with
              | none => .anonymous
              | some ud =>
                  match init_data ud with
                  | .error _ => .anonymous
                  | .ok d => .plone login d

/-- Outcome of an interleaved execution of two `service_token` callers:
how many `getAuthToken` network calls were made and the final
`self._service_token`. -/
structure ConcOutcome where
  calls : Nat
  held : Option ServiceEnvelope
  deriving DecidableEq, Repr

/-- Interleaving model of two concurrent invocations of the
`service_token` accessor on one `OAuth` instance.  The coroutine body is
atomic up to `await self.call_auth(...)` (the staleness check of lines
83-86) and resumes after the await with the store of line 94.  Schedule
modelled: task A runs its check and suspends at the await; task B runs
its check (the shared `self._service_token` is still unchanged) and
suspends; A's call returns `r1` and is stored; B's call returns `r2` and
is stored.  Nothing in the source serializes the two renewals. -/
def two_callers_run (init : Option ServiceEnvelope) (now : Int)
    (r1 r2 : ServiceEnvelope) : ConcOutcome :=
  let aNeeds := needs_renewal init now
  let bNeeds := needs_renewal init now
  let s1 : ConcOutcome := if aNeeds then ⟨1, some r1⟩ else ⟨0, init⟩
  let s2 : ConcOutcome := if bNeeds then ⟨s1.calls + 1, some r2⟩ else s1
  s2

/-- Claim C1: when the local decode of an inbound bearer token succeeds and
yields both a `token` and a `login` claim, and the remote `validToken`
call returns a user string, `extract_user` records a validated login
(`'user'` in the credential cache) exactly when that string equals the
decoded `login` claim; for every non-matching pair the credentials
contain no validated login. -/
theorem extract_user_cross_validation (h : String) (tok : TokenProps) (t l v : String)
    (hb : str_lower (partition_space h).1 = "bearer")
    (hsig : tok.sigValid = true) (hexp : tok.expired = false) (hiat : tok.iatFuture = false)
    (ht : tok.claims.token? = some t) (hl : tok.claims.login? = some l) :
    (v = l → extract_user (some h) true tok (.ok (some v)) = .ok ⟨some tok.claims, some v⟩)
    ∧ (v ≠ l → extract_user (some h) true tok (.ok (some v)) = .ok ⟨some tok.claims, none⟩) := by
  constructor
  · intro hv
    subst hv
    simp [extract_user, jwt_decode, hb, hsig, hexp, hiat, ht, hl]
  · intro hv
    simp [extract_user, jwt_decode, hb, hsig, hexp, hiat, ht, hl, hv]

/-- Witness for C1 at concrete inputs: subject claim `alice`, remote answer
`bob` — no validated login is recorded. -/
theorem extract_user_cross_validation_witness :
    extract_user (some "Bearer x") true ⟨true, false, false, ⟨some "tok1", some "alice"⟩⟩
        (.ok (some "bob"))
      = .ok ⟨some ⟨some "tok1", some "alice"⟩, none⟩ :=
  (extract_user_cross_validation "Bearer x" ⟨true, false, false, ⟨some "tok1", some "alice"⟩⟩
    "tok1" "alice" "bob" (by decide) rfl rfl rfl rfl rfl).2 (by decide)

/-- Claim C2: when a held service token's `exp` is strictly greater than
now, the `service_token` accessor returns its value and makes no network
call; otherwise it issues the `getAuthToken` call with the configured
client id and client secret and, when that call returns a result, stores
it and returns its `service_token` value. -/
theorem service_token_spec (cfg : OAuthConfig) (held : Option ServiceEnvelope)
    (now : Int) (auth_result : Option ServiceEnvelope) :
    (∀ tok, held = some tok → tok.exp > now →
        service_token cfg held now auth_result = .ok (some tok.service_token, held, none))
    ∧ (needs_renewal held now = true → ∀ r, auth_result = some r →
        service_token cfg held now auth_result
          = .ok (some r.service_token, some r, some (getAuthToken_call cfg))) := by
  constructor
  · rintro tok rfl hexp
    simp [service_token, hexp]
  · intro hn r hr
    subst hr
    cases held with
    | none => rfl
    | some tok =>
        have h2 : ¬ tok.exp > now := by
          by_contra hgt
          simp [needs_renewal, hgt] at hn
        simp [service_token, service_token_renew, h2]

/-- Witness for C2: a fresh token (`exp = 100`, `now = 50`) is returned
without a call; at `now = 100` the same held token forces a renewal that
stores and returns the new envelope. -/
theorem service_token_spec_witness :
    service_token ⟨"https://auth.example/", "secret", "HS256", "cid", "pw"⟩
        (some ⟨"T1", 100⟩) 50 none = .ok (some "T1", some ⟨"T1", 100⟩, none)
    ∧ service_token ⟨"https://auth.example/", "secret", "HS256", "cid", "pw"⟩
        (some ⟨"T1", 100⟩) 100 (some ⟨"T2", 200⟩)
      = .ok (some "T2", some ⟨"T2", 200⟩,
          some (getAuthToken_call ⟨"https://auth.example/", "secret", "HS256", "cid", "pw"⟩)) :=
  ⟨(service_token_spec _ (some ⟨"T1", 100⟩) 50 none).1 ⟨"T1", 100⟩ rfl (by decide),
   (service_token_spec _ (some ⟨"T1", 100⟩) 100 (some ⟨"T2", 200⟩)).2 (by decide) ⟨"T2", 200⟩ rfl⟩

/-- Claim C3: in `call_auth`, a 200-status body whose decode fails solely
because the issued-at claim is in the future is decoded a second time
with issued-at verification disabled and succeeds; an invalid signature
is terminal with a single attempt; expiry verification stays active on
the retry; overall, decoding succeeds exactly when the signature is
valid and the token unexpired. -/
theorem call_auth_skew_retry (tok : TokenProps) :
    (tok.sigValid = true → tok.expired = false → tok.iatFuture = true →
        call_auth_decode tok = (.ok tok.claims, 2))
    ∧ (tok.sigValid = false → call_auth_decode tok = (.error .decodeError, 1))
    ∧ (tok.sigValid = true → tok.expired = true → tok.iatFuture = true →
        call_auth_decode tok = (.error .expiredSignature, 2))
    ∧ ((call_auth_decode tok).1 = .ok tok.claims
        ↔ (tok.sigValid = true ∧ tok.expired = false)) := by
  obtain ⟨s, e, i, c⟩ := tok
  cases s <;> cases e <;> cases i <;> simp [call_auth_decode, jwt_decode]

/-- Witness for C3: a future-dated but otherwise valid body decodes on the
second attempt; a bad-signature body fails on the first with no retry. -/
theorem call_auth_skew_retry_witness :
    call_auth_decode ⟨true, false, true, ⟨some "t", some "l"⟩⟩
      = (.ok ⟨some "t", some "l"⟩, 2)
    ∧ call_auth_decode ⟨false, false, false, ⟨none, none⟩⟩ = (.error .decodeError, 1) :=
  ⟨(call_auth_skew_retry ⟨true, false, true, ⟨some "t", some "l"⟩⟩).1 rfl rfl rfl,
   (call_auth_skew_retry ⟨false, false, false, ⟨none, none⟩⟩).2.1 rfl⟩

/-- Counterexample to claim C4 as stated: the role map `{"editor": 2}`
translates to `{"editor": Unset}`, the length test on the translated map
still sees one entry, so `_init_data` succeeds and `create_user`
materializes a usable (non-anonymous) identity instead of falling back. -/
theorem init_data_all_unset_materializes :
    init_data ⟨[("editor", 2)], [], "Alice"⟩
      = .ok ⟨[("editor", PermState.Unset)], [], "Alice"⟩
    ∧ create_user ⟨some ⟨some "tok1", some "alice"⟩, some "alice"⟩
        (some ⟨[("editor", 2)], [], "Alice"⟩)
      = .plone "alice" ⟨[("editor", PermState.Unset)], [], "Alice"⟩ :=
  ⟨rfl, rfl⟩

/-- Claim C4 (amended): user resolution fails with the no-roles `KeyError`
exactly for an empty raw role map — translation never removes entries, so
a non-empty map whose values all translate to `Unset` does not fail — and
on that failure `create_user` falls back to the anonymous identity. -/
theorem init_data_empty_roles_anonymous (ud : UserData) (hroles : ud.roles = [])
    (l t : String) (c : Option String) :
    init_data ud = .error PyError.keyError
    ∧ create_user ⟨some ⟨some t, c⟩, some l⟩ (some ud) = ResolvedUser.anonymous := by
  have h1 : init_data ud = .error PyError.keyError := by
    simp [init_data, map_roles, hroles]
  exact ⟨h1, by simp [create_user, h1]⟩

/-- Witness for the amended C4 at a concrete empty role map. -/
theorem init_data_empty_roles_anonymous_witness :
    init_data ⟨[], [("staff", 1)], "Alice"⟩ = .error PyError.keyError
    ∧ create_user ⟨some ⟨some "tok1", some "alice"⟩, some "alice"⟩
        (some ⟨[], [("staff", 1)], "Alice"⟩) = ResolvedUser.anonymous :=
  init_data_empty_roles_anonymous ⟨[], [("staff", 1)], "Alice"⟩ rfl "alice" "tok1" (some "alice")

/-- Claim C5: the role-mapping policy is a total function on integers,
`1 → Allow`, `0 → Deny`, anything else `→ Unset`, applied independently
to each entry of the raw role map, and permuting the entries permutes the
result (order independence). -/
theorem role_mapping_policy_spec :
    map_role_value 1 = PermState.Allow
    ∧ map_role_value 0 = PermState.Deny
    ∧ (∀ v : Int, v ≠ 1 → v ≠ 0 → map_role_value v = PermState.Unset)
    ∧ (∀ l : List (String × Int), map_roles l = l.map fun kv => (kv.1, map_role_value kv.2))
    ∧ (∀ l₁ l₂ : List (String × Int), l₁.Perm l₂ → (map_roles l₁).Perm (map_roles l₂)) := by
  refine ⟨rfl, rfl, ?_, fun l => rfl, ?_⟩
  · intro v h1 h0
    simp [map_role_value, h1, h0]
  · intro l₁ l₂ hp
    exact hp.map _

/-- Witness for C5: value `2` maps to `Unset`, and mapping a two-entry map
commutes with swapping the entries. -/
theorem role_mapping_policy_spec_witness :
    map_role_value 2 = PermState.Unset
    ∧ (map_roles [("a", 1), ("b", 0)]).Perm (map_roles [("b", 0), ("a", 1)]) :=
  ⟨role_mapping_policy_spec.2.2.1 2 (by decide) (by decide),
   role_mapping_policy_spec.2.2.2.2 [("a", 1), ("b", 0)] [("b", 0), ("a", 1)]
     (List.Perm.swap ("b", 0) ("a", 1) [])⟩

/-- Counterexample to claim C6 as stated: a bearer token whose decode
fails with an expired-signature error is not covered by the
`except jwt.exceptions.DecodeError` clause, so `extract_user` raises
instead of producing empty credentials. -/
theorem extract_user_expired_token_raises :
    extract_user (some "Bearer abc") true ⟨true, true, false, ⟨some "t", some "l"⟩⟩ (.ok none)
      = .error (.jwt .expiredSignature) :=
  rfl

/-- Claim C6 (amended): `extract_user` produces empty credentials without
raising when the authorization header is absent, when its scheme is not
`bearer`, and when local decode fails with a `DecodeError` (malformed
body or invalid signature); decode failures of other exception classes
(such as an expired token) are outside the caught class. -/
theorem extract_user_anonymous_paths :
    (∀ (hc : Bool) (tok : TokenProps) (v : Except PyError (Option String)),
        extract_user none hc tok v = .ok ⟨none, none⟩)
    ∧ (∀ (h : String) (tok : TokenProps) (v : Except PyError (Option String)),
        str_lower (partition_space h).1 ≠ "bearer" →
        extract_user (some h) true tok v = .ok ⟨none, none⟩)
    ∧ (∀ (h : String) (tok : TokenProps) (v : Except PyError (Option String)),
        tok.sigValid = false →
        extract_user (some h) true tok v = .ok ⟨none, none⟩) := by
  refine ⟨?_, ?_, ?_⟩
  · intro hc tok v
    cases hc <;> rfl
  · intro h tok v hb
    simp [extract_user, hb]
  · intro h tok v hs
    by_cases hb : str_lower (partition_space h).1 = "bearer"
    · simp [extract_user, jwt_decode, hb, hs]
    · simp [extract_user, hb]

/-- Witness for the amended C6: a `Basic` header and a bad-signature
bearer token each yield empty credentials. -/
theorem extract_user_anonymous_paths_witness :
    extract_user (some "Basic abc") true ⟨true, false, false, ⟨some "t", some "l"⟩⟩ (.ok none)
      = .ok ⟨none, none⟩
    ∧ extract_user (some "Bearer abc") true ⟨false, false, false, ⟨some "t", some "l"⟩⟩ (.ok none)
      = .ok ⟨none, none⟩ :=
  ⟨extract_user_anonymous_paths.2.1 "Basic abc" ⟨true, false, false, ⟨some "t", some "l"⟩⟩
     (.ok none) (by decide),
   extract_user_anonymous_paths.2.2 "Bearer abc" ⟨false, false, false, ⟨some "t", some "l"⟩⟩
     (.ok none) rfl⟩

/-- Counterexample to claim C7 as stated: with no held token and a failed
`getAuthToken` call, `service_token` returns normally with `None` — it
raises nothing, and no `AuthorityUnreachable` error exists anywhere in
the module. -/
theorem service_token_failure_no_error :
    service_token ⟨"https://auth.example/", "secret", "HS256", "cid", "pw"⟩ none 0 none
      = .ok (none, none,
          some (getAuthToken_call ⟨"https://auth.example/", "secret", "HS256", "cid", "pw"⟩)) :=
  rfl

/-- Claim C7 (amended): whenever the issuing call yields no result, the
accessor returns `None` to the caller without raising and without
updating the held token. -/
theorem service_token_failure_returns_none (cfg : OAuthConfig)
    (held : Option ServiceEnvelope) (now : Int)
    (h : needs_renewal held now = true) :
    service_token cfg held now none = .ok (none, held, some (getAuthToken_call cfg)) := by
  cases held with
  | none => rfl
  | some tok =>
      have h2 : ¬ tok.exp > now := by
        by_contra hgt
        simp [needs_renewal, hgt] at h
      simp [service_token, service_token_renew, h2]

/-- Witness for the amended C7 at a concrete expired held token. -/
theorem service_token_failure_returns_none_witness :
    service_token ⟨"https://auth.example/", "secret", "HS256", "cid", "pw"⟩
        (some ⟨"T0", 10⟩) 10 none
      = .ok (none, some ⟨"T0", 10⟩,
          some (getAuthToken_call ⟨"https://auth.example/", "secret", "HS256", "cid", "pw"⟩)) :=
  service_token_failure_returns_none _ (some ⟨"T0", 10⟩) 10 (by decide)

/-- Claim C8 evaluated on the code: two concurrent `service_token` callers
that both pass the staleness check before either stores the renewal
result make two `getAuthToken` calls — once starting from no held token,
once from an expired one — so the single-flight property the design
mandates does not hold in the source. -/
theorem service_token_double_renewal :
    two_callers_run none 0 ⟨"T1", 100⟩ ⟨"T2", 100⟩ = ⟨2, some ⟨"T2", 100⟩⟩
    ∧ two_callers_run (some ⟨"T0", 0⟩) 0 ⟨"T1", 100⟩ ⟨"T2", 100⟩ = ⟨2, some ⟨"T2", 100⟩⟩ :=
  ⟨rfl, rfl⟩

/-- Claim C9: `validate_token` subscripts the held service token while
building the request parameters, before any network traffic and without
triggering acquisition, so with no held token it raises `TypeError`
instead of returning `None`. -/
theorem validate_token_requires_service_token (scope token : String)
    (call_result : Option ValidationResult) :
    validate_token none scope token call_result = .error PyError.typeError :=
  rfl

/-- Counterexample to claim C10 as stated: a successfully decoded claims
map lacking `login` does not raise when the remote validation returns no
user — the `and` short-circuit never reads `creds['jwt']['login']`, and
`extract_user` returns parsed-but-unvalidated credentials. -/
theorem extract_user_missing_login_no_keyerror :
    extract_user (some "Bearer abc") true ⟨true, false, false, ⟨some "tok1", none⟩⟩ (.ok none)
      = .ok ⟨some ⟨some "tok1", none⟩, none⟩ :=
  rfl

/-- Claim C10 (amended): after a successful decode, a claims map with no
`token` key raises `KeyError` (before the remote call, whatever its
outcome would be), and a claims map with a `token` key but no `login` key
raises `KeyError` exactly when the remote validation returns a user. -/
theorem extract_user_missing_claims_keyerror (h : String) (tok : TokenProps)
    (hb : str_lower (partition_space h).1 = "bearer")
    (hsig : tok.sigValid = true) (hexp : tok.expired = false) (hiat : tok.iatFuture = false) :
    (tok.claims.token? = none →
        ∀ validation, extract_user (some h) true tok validation = .error PyError.keyError)
    ∧ (∀ t v, tok.claims.token? = some t → tok.claims.login? = none →
        extract_user (some h) true tok (.ok (some v)) = .error PyError.keyError) := by
  constructor
  · intro ht validation
    simp [extract_user, jwt_decode, hb, hsig, hexp, hiat, ht]
  · intro t v ht hl
    simp [extract_user, jwt_decode, hb, hsig, hexp, hiat, ht, hl]

/-- Witness for the amended C10: a missing `token` key raises, and a
missing `login` key raises when the remote answers with a user. -/
theorem extract_user_missing_claims_keyerror_witness :
    extract_user (some "Bearer x") true ⟨true, false, false, ⟨none, some "l"⟩⟩ (.ok none)
      = .error PyError.keyError
    ∧ extract_user (some "Bearer x") true ⟨true, false, false, ⟨some "tok1", none⟩⟩
        (.ok (some "bob"))
      = .error PyError.keyError :=
  ⟨(extract_user_missing_claims_keyerror "Bearer x" ⟨true, false, false, ⟨none, some "l"⟩⟩
      (by decide) rfl rfl rfl).1 rfl (.ok none),
   (extract_user_missing_claims_keyerror "Bearer x" ⟨true, false, false, ⟨some "tok1", none⟩⟩
      (by decide) rfl rfl rfl).2 "tok1" "bob" rfl rfl⟩

end PServerOAuth
